import Mathlib

/-!
Shallow embedding of the InvoFlow invoicing core (Next.js API routes and
`lib/mock-ai.ts`) for checking the natural-language specification.

Conventions of the embedding:
* Money, tax rates, quantities and dates are modelled as exact rationals
  (`ℚ`); dates are counted in days, so the JS `setDate(getDate() + 30)`
  becomes `+ 30` and millisecond differences divided by 86_400_000 become
  plain day differences.
* The persistence collaborator (prisma) is modelled as an in-memory `DB`
  value threaded through each operation.  Lists of rows are kept in
  `createdAt`-descending order (most recently created first), matching the
  `orderBy: { createdAt: "desc" }` queries of the source; creating a row
  conses it onto the head.
* Each API route handler becomes a function `DB → Except String α × DB`:
  the `Except` carries the HTTP-level success/error outcome, the returned
  `DB` the writes performed (on an early-return error path the `DB` is
  returned unchanged, exactly as the handler returns before any
  `prisma.create`/`update` call).
* Fresh identifiers (cuid) and the synthetic gateway id (built in the
  source from `Date.now()` and `Math.random()`) are taken as parameters.
-/

namespace InvoFlow

/-- Invoice lifecycle status (prisma enum: draft, sent, paid, overdue,
cancelled). -/
inductive Status where
  | draft
  | sent
  | paid
  | overdue
  | cancelled
deriving DecidableEq, Repr

/-- Line item of an invoice (`InvoiceItem` rows; `amount` is stored). -/
structure InvoiceItem where
  description : String
  quantity : ℚ
  rate : ℚ
  amount : ℚ
deriving DecidableEq, Repr

/-- Invoice row.  Only fields the verified routes read or write are kept;
`items` carries the related `InvoiceItem` rows (prisma `include`). -/
structure Invoice where
  id : String
  number : String
  status : Status
  issueDate : ℚ
  dueDate : ℚ
  subtotal : ℚ
  taxRate : ℚ
  tax : ℚ
  total : ℚ
  notes : Option String
  terms : Option String
  currency : String
  reminderCount : ℕ
  lastRemindedAt : Option ℚ
  clientId : String
  userId : String
  items : List InvoiceItem
deriving DecidableEq, Repr

/-- Payment row. -/
structure Payment where
  invoiceId : String
  amount : ℚ
  method : String
  gateway : Option String
  gatewayPaymentId : Option String
  reference : Option String
  paymentStatus : String
  paidAt : ℚ
deriving DecidableEq, Repr

/-- User row (only the fields the verified routes touch). -/
structure User where
  id : String
  invoiceCounter : ℕ
deriving DecidableEq, Repr

/-- Client row (only the fields the verified routes touch). -/
structure Client where
  id : String
  name : String
  email : String
deriving DecidableEq, Repr

/-- The relational store.  Row lists are ordered most-recently-created
first (`createdAt desc`). -/
structure DB where
  users : List User
  clients : List Client
  invoices : List Invoice
  payments : List Payment
deriving DecidableEq, Repr

/-- `prisma.invoice.findFirst({ where: { id, userId } })`. -/
def lookupInvoice (userId id : String) (db : DB) : Option Invoice :=
  (db.invoices.filter (fun i => decide (i.id = id ∧ i.userId = userId))).head?

/-- `prisma.invoice.update({ where: { id } })`: replace the row with the
given id (prisma updates by unique id). -/
def replaceInvoice (inv : Invoice) (db : DB) : DB :=
  { db with invoices := db.invoices.map (fun i => if i.id = inv.id then inv else i) }

/-- Sum of payment amounts (`reduce((sum, p) => sum + p.amount, 0)`, and the
`aggregate({ _sum: { amount } })` of the payments route, with `|| 0`). -/
def sumAmounts (ps : List Payment) : ℚ :=
  ps.foldl (fun s p => s + p.amount) 0

/-- Payments belonging to one invoice (`where: { invoiceId: id }`). -/
def paymentsFor (id : String) (db : DB) : List Payment :=
  db.payments.filter (fun p => decide (p.invoiceId = id))

/-- Zero-pad to three digits (`String(n).padStart(3, "0")`). -/
def pad3 (n : ℕ) : String :=
  let s := toString n
  if s.length ≥ 3 then s else String.mk (List.replicate (3 - s.length) '0') ++ s

/-- Numeric suffix of an invoice number (the source matches
`/INV-(\d+)/` and `parseInt`s the captured digits; every number the app
generates has the form `INV-` followed by digits). -/
def parseInvNumber (s : String) : Option ℕ :=
  if s.startsWith "INV-" then (s.drop 4).toNat? else none

/-- Input line item as accepted by the zod schemas. -/
structure ItemInput where
  description : String
  quantity : ℚ
  rate : ℚ
deriving DecidableEq, Repr

/-- Body of `POST /api/invoices` (`createInvoiceSchema`). -/
structure CreateInput where
  clientId : String
  issueDate : ℚ
  dueDate : ℚ
  notes : Option String
  terms : Option String
  currency : String
  taxRate : ℚ
  status : Status
  items : List ItemInput
deriving Repr

/-- Zod item validation: nonempty description, positive quantity,
non-negative rate. -/
def validItem (it : ItemInput) : Bool :=
  decide (it.description ≠ "" ∧ 0 < it.quantity ∧ 0 ≤ it.rate)

/-- `createInvoiceSchema.safeParse`: client required, `taxRate` in `[0,100]`,
status restricted to draft/sent, at least one valid item. -/
def validCreate (input : CreateInput) : Bool :=
  decide (input.clientId ≠ "") &&
  decide (0 ≤ input.taxRate ∧ input.taxRate ≤ 100) &&
  decide (input.status = Status.draft ∨ input.status = Status.sent) &&
  decide (input.items ≠ []) &&
  input.items.all validItem

/-- Materialize input items, computing `amount = quantity * rate`. -/
def mkItems (its : List ItemInput) : List InvoiceItem :=
  its.map (fun it =>
    { description := it.description, quantity := it.quantity,
      rate := it.rate, amount := it.quantity * it.rate })

/-- `items.reduce((sum, item) => sum + item.amount, 0)`. -/
def itemsSubtotal (its : List InvoiceItem) : ℚ :=
  its.foldl (fun s it => s + it.amount) 0

/-- `POST /api/invoices`: validate, derive the next number from the most
recently created invoice's number, compute `amount`/`subtotal`/`tax`/`total`,
insert the new invoice. -/
def createInvoice (user : User) (input : CreateInput) (freshId : String)
    (db : DB) : Except String Invoice × DB :=
  if !validCreate input then (Except.error "invalid input", db) else
  let lastInvoice := (db.invoices.filter (fun i => decide (i.userId = user.id))).head?
  let nextNumber : ℕ :=
    match lastInvoice with
    | none => 1
    | some last =>
      match parseInvNumber last.number with
      | some n => n + 1
      | none => 1
  let invoiceNumber := "INV-" ++ pad3 nextNumber
  let items := mkItems input.items
  let subtotal := itemsSubtotal items
  let tax := subtotal * (input.taxRate / 100)
  let total := subtotal + tax
  let inv : Invoice :=
    { id := freshId, number := invoiceNumber, status := input.status,
      issueDate := input.issueDate, dueDate := input.dueDate,
      subtotal := subtotal, taxRate := input.taxRate, tax := tax,
      total := total, notes := input.notes, terms := input.terms,
      currency := input.currency, reminderCount := 0, lastRemindedAt := none,
      clientId := input.clientId, userId := user.id, items := items }
  (Except.ok inv, { db with invoices := inv :: db.invoices })

/-- Body of `PUT /api/invoices/[id]` (`updateInvoiceSchema`); every field is
optional, `notes`/`terms` distinguish "absent" from "null" (outer/inner
`Option`). -/
structure UpdateInput where
  clientId : Option String
  issueDate : Option ℚ
  dueDate : Option ℚ
  notes : Option (Option String)
  terms : Option (Option String)
  currency : Option String
  taxRate : Option ℚ
  status : Option Status
  items : Option (List ItemInput)
deriving Repr

/-- `updateInvoiceSchema.safeParse`: optional fields, `taxRate` in `[0,100]`,
items (when present) each valid; unlike creation an empty items array is
accepted. -/
def validUpdate (input : UpdateInput) : Bool :=
  (match input.clientId with | none => true | some c => decide (c ≠ "")) &&
  (match input.taxRate with
   | none => true
   | some t => decide (0 ≤ t ∧ t ≤ 100)) &&
  (match input.items with | none => true | some its => its.all validItem)

/-- The unconditional field updates of the PUT handler (the truthiness
checks `if (data.x)`; an empty-string currency is falsy in JS and hence
skipped). -/
def applyBasic (existing : Invoice) (input : UpdateInput) : Invoice :=
  { existing with
    clientId := input.clientId.getD existing.clientId,
    issueDate := input.issueDate.getD existing.issueDate,
    dueDate := input.dueDate.getD existing.dueDate,
    notes := (match input.notes with | some v => v | none => existing.notes),
    terms := (match input.terms with | some v => v | none => existing.terms),
    currency :=
      (match input.currency with
       | some c => if c = "" then existing.currency else c
       | none => existing.currency),
    status := input.status.getD existing.status }

/-- `PUT /api/invoices/[id]`: look up the invoice, validate, then either
(a) replace the items wholesale and recompute subtotal/tax/total using the
new-or-existing tax rate, (b) with a tax rate but no items recompute
tax/total from the stored subtotal, or (c) apply only the basic field
updates.  No status precondition is checked. -/
def updateInvoice (user : User) (id : String) (input : UpdateInput)
    (db : DB) : Except String Invoice × DB :=
  match lookupInvoice user.id id db with
  | none => (Except.error "Invoice not found", db)
  | some existing =>
    if !validUpdate input then (Except.error "invalid input", db) else
    let base := applyBasic existing input
    match input.items with
    | some its =>
      let taxRate := input.taxRate.getD existing.taxRate
      let items := mkItems its
      let subtotal := itemsSubtotal items
      let tax := subtotal * (taxRate / 100)
      let total := subtotal + tax
      let inv : Invoice :=
        { base with
          items := items,
          subtotal := subtotal,
          taxRate := taxRate,
          tax := tax,
          total := total }
      (Except.ok inv, replaceInvoice inv db)
    | none =>
      match input.taxRate with
      | some tr =>
        let subtotal := existing.subtotal
        let tax := subtotal * (tr / 100)
        let total := subtotal + tax
        let inv : Invoice := { base with taxRate := tr, tax := tax, total := total }
        (Except.ok inv, replaceInvoice inv db)
      | none =>
        (Except.ok base, replaceInvoice base db)

/-- The stored-total consistency property of the spec: every item amount is
`quantity × rate`, `subtotal` is the sum of the amounts, `tax` is
`subtotal × taxRate/100` and `total = subtotal + tax` (exact rational
equalities, hence in particular within the spec's 1e-2 tolerance). -/
def calcInvariant (inv : Invoice) : Prop :=
  (∀ it ∈ inv.items, it.amount = it.quantity * it.rate) ∧
  inv.subtotal = itemsSubtotal inv.items ∧
  inv.tax = inv.subtotal * (inv.taxRate / 100) ∧
  inv.total = inv.subtotal + inv.tax

/-- The payment methods accepted by `createPaymentSchema`. -/
def validMethods : List String :=
  ["bank_transfer", "credit_card", "paypal", "check", "cash", "other"]

/-- Body of `POST /api/invoices/[id]/payments` (`createPaymentSchema`). -/
structure PaymentBody where
  amount : ℚ
  method : String
  reference : Option String
  paidAt : Option ℚ
deriving Repr

/-- `createPaymentSchema.safeParse`: positive amount and a known method. -/
def validPaymentBody (body : PaymentBody) : Bool :=
  decide (0 < body.amount) && decide (body.method ∈ validMethods)

/-- Set the status of the invoice with the given id
(`prisma.invoice.update({ where: { id }, data: { status } })`). -/
def setStatus (id : String) (st : Status) (db : DB) : DB :=
  { db with invoices :=
      db.invoices.map (fun i => if i.id = id then { i with status := st } else i) }

/-- `POST /api/invoices/[id]/payments`: look up the owned invoice, validate
the body, reject when cumulative paid plus the new amount exceeds the
invoice total, otherwise persist the payment and, when the cumulative paid
is within 0.01 of the total, mark the invoice paid.  No invoice-status
precondition is checked. -/
def recordPayment (user : User) (id : String) (body : PaymentBody) (now : ℚ)
    (db : DB) : Except String Payment × DB :=
  match lookupInvoice user.id id db with
  | none => (Except.error "Invoice not found", db)
  | some invoice =>
    if !validPaymentBody body then (Except.error "invalid input", db) else
    let existingSum := sumAmounts (paymentsFor id db)
    let totalPaid := existingSum + body.amount
    if invoice.total < totalPaid then
      (Except.error "Payment amount exceeds remaining balance", db)
    else
      let payment : Payment :=
        { invoiceId := id, amount := body.amount, method := body.method,
          gateway := none, gatewayPaymentId := none,
          reference := body.reference, paymentStatus := "completed",
          paidAt := body.paidAt.getD now }
      let db1 : DB := { db with payments := payment :: db.payments }
      let db2 := if |totalPaid - invoice.total| < 1 / 100
                 then setStatus id Status.paid db1 else db1
      (Except.ok payment, db2)

/-- `prisma.client.findUnique` used by the pay route to render the payer
reference; the routes assume the relation exists. -/
def clientNameFor (clientId : String) (db : DB) : String :=
  ((db.clients.filter (fun c => decide (c.id = clientId))).head?.map Client.name).getD ""

/-- `POST /api/invoices/[id]/pay` (public online payment): reject when the
invoice is missing, already paid, cancelled, or has no positive balance
due; otherwise create a single completed payment for the entire remaining
balance carrying the synthetic gateway id and mark the invoice paid.
The synthetic id (built from `Date.now()` and `Math.random()`) is a
parameter. -/
def processOnlinePayment (id : String) (method : Option String)
    (payerName : Option String) (gatewayId : String) (now : ℚ)
    (db : DB) : Except String Payment × DB :=
  match (db.invoices.filter (fun i => decide (i.id = id))).head? with
  | none => (Except.error "Invoice not found", db)
  | some invoice =>
    if invoice.status = Status.paid then
      (Except.error "This invoice has already been paid", db)
    else if invoice.status = Status.cancelled then
      (Except.error "This invoice has been cancelled", db)
    else
      let totalPaid := sumAmounts (paymentsFor id db)
      let balanceDue := invoice.total - totalPaid
      if balanceDue ≤ 0 then
        (Except.error "No balance due on this invoice", db)
      else
        let payment : Payment :=
          { invoiceId := id, amount := balanceDue,
            method := method.getD "credit_card",
            gateway := some "online", gatewayPaymentId := some gatewayId,
            reference := some ("Online payment by " ++
              (payerName.getD (clientNameFor invoice.clientId db))),
            paymentStatus := "completed", paidAt := now }
        let db1 : DB := { db with payments := payment :: db.payments }
        (Except.ok payment, setStatus id Status.paid db1)

/-- Bump a user's `invoiceCounter` to the given value
(`tx.user.update({ data: { invoiceCounter: nextCounter } })`). -/
def setCounter (userId : String) (n : ℕ) (db : DB) : DB :=
  { db with users :=
      db.users.map (fun u => if u.id = userId then { u with invoiceCounter := n } else u) }

/-- `POST /api/invoices/[id]/duplicate`: copy the owned invoice into a new
draft numbered from the per-user `invoiceCounter` (`(counter || 0) + 1`),
with `issueDate = now`, `dueDate = now + 30` days, the items copied
field-by-field, and the counter advanced. -/
def duplicateInvoice (user : User) (id : String) (freshId : String) (now : ℚ)
    (db : DB) : Except String Invoice × DB :=
  match lookupInvoice user.id id db with
  | none => (Except.error "Invoice not found", db)
  | some invoice =>
    let counter := ((db.users.filter (fun u => decide (u.id = user.id))).head?.map
      User.invoiceCounter).getD 0
    let nextCounter := counter + 1
    let invoiceNumber := "INV-" ++ pad3 nextCounter
    let dueDate := now + 30
    let newInvoice : Invoice :=
      { id := freshId, number := invoiceNumber, status := Status.draft,
        issueDate := now, dueDate := dueDate,
        subtotal := invoice.subtotal, taxRate := invoice.taxRate,
        tax := invoice.tax, total := invoice.total,
        notes := invoice.notes, terms := invoice.terms,
        currency := invoice.currency, reminderCount := 0,
        lastRemindedAt := none, clientId := invoice.clientId,
        userId := user.id,
        items := invoice.items.map (fun it =>
          { description := it.description, quantity := it.quantity,
            rate := it.rate, amount := it.amount }) }
    let db1 := setCounter user.id nextCounter db
    (Except.ok newInvoice, { db1 with invoices := newInvoice :: db1.invoices })

/-- Does the overdue sweep's `updateMany` filter select this invoice? -/
def sweepHits (userId : String) (now : ℚ) (i : Invoice) : Prop :=
  i.userId = userId ∧ i.status = Status.sent ∧ i.dueDate < now

instance (userId : String) (now : ℚ) (i : Invoice) :
    Decidable (sweepHits userId now i) := by
  unfold sweepHits; infer_instance

/-- `checkOverdueInvoices` (POST check-overdue route):
`updateMany({ where: { userId, status: "sent", dueDate: { lt: now } },
data: { status: "overdue" } })`, returning the affected count. -/
def checkOverdueInvoices (userId : String) (now : ℚ) (db : DB) : ℕ × DB :=
  let count := db.invoices.countP (fun i => decide (sweepHits userId now i))
  (count,
   { db with invoices := db.invoices.map (fun i =>
       if sweepHits userId now i then { i with status := Status.overdue } else i) })

/-- `POST /api/invoices/[id]/send`: only draft or sent invoices can be
sent; flips the status to sent. -/
def sendInvoice (user : User) (id : String) (db : DB) :
    Except String Invoice × DB :=
  match lookupInvoice user.id id db with
  | none => (Except.error "Invoice not found", db)
  | some invoice =>
    if invoice.status ≠ Status.draft ∧ invoice.status ≠ Status.sent then
      (Except.error "Only draft or sent invoices can be sent", db)
    else
      let updated := { invoice with status := Status.sent }
      (Except.ok updated, replaceInvoice updated db)

/-- `POST /api/invoices/[id]/remind`: only sent or overdue invoices can be
reminded; increments `reminderCount` and stamps `lastRemindedAt`. -/
def remindInvoice (user : User) (id : String) (now : ℚ) (db : DB) :
    Except String Invoice × DB :=
  match lookupInvoice user.id id db with
  | none => (Except.error "Invoice not found", db)
  | some invoice =>
    if invoice.status ≠ Status.sent ∧ invoice.status ≠ Status.overdue then
      (Except.error "Can only send reminders for sent or overdue invoices", db)
    else
      let updated := { invoice with
        reminderCount := invoice.reminderCount + 1,
        lastRemindedAt := some now }
      (Except.ok updated, replaceInvoice updated db)

/-- JS `Math.round`: round half toward positive infinity. -/
def jsRound (x : ℚ) : ℚ := ((⌊x + 1 / 2⌋ : ℤ) : ℚ)

/-- Drop whitespace from both ends of a character list (JS `trim`). -/
def trimChars (cs : List Char) : List Char :=
  ((cs.dropWhile Char.isWhitespace).reverse.dropWhile Char.isWhitespace).reverse

/-- JS `toLowerCase` (kernel-reducible, over the character list). -/
def toLowerStr (s : String) : String := String.mk (s.data.map Char.toLower)

/-- JS `trim` (kernel-reducible, over the character list). -/
def trimStr (s : String) : String := String.mk (trimChars s.data)

/-- JS `description.toLowerCase().trim()`, the aggregation key used
throughout `mock-ai.ts`. -/
def lowerTrim (s : String) : String := String.mk (trimChars (s.data.map Char.toLower))

/-- JS `String.prototype.includes`: substring containment. -/
def containsStr (s pat : String) : Bool := decide (pat.data <:+: s.data)

/-- JS `split(" ")` on a character list: split at every single space,
keeping empty fragments (`"a  b".split(" ") = ["a", "", "b"]`,
`"".split(" ") = [""]`). -/
def splitChars : List Char → List (List Char)
  | [] => [[]]
  | c :: rest =>
    let r := splitChars rest
    if c = ' ' then [] :: r
    else
      match r with
      | [] => [[c]]
      | w :: ws => (c :: w) :: ws

/-- JS `search.split(" ")`. -/
def splitOnSpaceStr (s : String) : List String := (splitChars s.data).map String.mk

/-- A line-item suggestion returned by `suggestLineItems`. -/
structure Suggestion where
  description : String
  quantity : ℚ
  rate : ℚ
  frequency : ℕ
  confidence : ℚ
deriving DecidableEq, Repr

/-- Descending-by-frequency order used by
`sort((a, b) => b.frequency - a.frequency)`. -/
def freqRel (a b : Suggestion) : Prop := b.frequency ≤ a.frequency

instance : DecidableRel freqRel := fun a b => by unfold freqRel; infer_instance

/-- Stable descending sort by frequency (JS `Array.prototype.sort` is
stable; insertion sort keeps earlier elements in front of later equal
ones). -/
def sortByFrequencyDesc (l : List Suggestion) : List Suggestion :=
  l.insertionSort freqRel

/-- Client-path aggregation record (`itemMap` values: description as first
seen, all rates and quantities pushed in scan order, occurrence count). -/
structure AggEntry where
  key : String
  description : String
  rates : List ℚ
  quantities : List ℚ
  count : ℕ
deriving DecidableEq, Repr

/-- Insert one invoice item into the client-path `itemMap` (keyed by
lowercased trimmed description; JS object keys keep insertion order). -/
def addClientItem (m : List AggEntry) (it : InvoiceItem) : List AggEntry :=
  let key := lowerTrim it.description
  if m.any (fun e => decide (e.key = key)) then
    m.map (fun e =>
      if e.key = key then
        { e with
          rates := e.rates ++ [it.rate],
          quantities := e.quantities ++ [it.quantity],
          count := e.count + 1 }
      else e)
  else
    m ++ [{ key := key, description := it.description, rates := [it.rate],
            quantities := [it.quantity], count := 1 : AggEntry }]

/-- Fallback-path aggregation record (`globalMap` values: no quantities). -/
structure GlobalEntry where
  key : String
  description : String
  rates : List ℚ
  count : ℕ
deriving DecidableEq, Repr

/-- Insert one invoice item into the fallback `globalMap`. -/
def addGlobalItem (m : List GlobalEntry) (it : InvoiceItem) : List GlobalEntry :=
  let key := lowerTrim it.description
  if m.any (fun e => decide (e.key = key)) then
    m.map (fun e =>
      if e.key = key then
        { e with rates := e.rates ++ [it.rate], count := e.count + 1 }
      else e)
  else
    m ++ [{ key := key, description := it.description, rates := [it.rate], count := 1 }]

/-- The fuzzy description filter: keep suggestions whose lowercased
description contains the search string or any of its space-delimited
words. -/
def matchesSearch (search : String) (s : Suggestion) : Bool :=
  containsStr (toLowerStr s.description) search ||
  (splitOnSpaceStr search).any (fun w => containsStr (toLowerStr s.description) w)

/-- Apply the optional description filter
(`if (description && description.trim())`). -/
def applyFilter (description : Option String) (l : List Suggestion) : List Suggestion :=
  match description with
  | some d =>
    if trimStr d ≠ "" then l.filter (matchesSearch (trimStr (toLowerStr d))) else l
  | none => l

/-- Client-specific path of `suggestLineItems`: aggregate the items of the
client's 50 most recent invoices by lowercased trimmed description;
suggested quantity is the average quantity rounded to one decimal, the
rate is the first pushed (most recent) rate, confidence
`min(95, 50 + 10*count)`; sort by frequency descending and filter. -/
def clientSuggestions (userId clientId : String) (description : Option String)
    (db : DB) : List Suggestion :=
  let invoices := (db.invoices.filter
    (fun i => decide (i.userId = userId ∧ i.clientId = clientId))).take 50
  let entries := (invoices.flatMap Invoice.items).foldl addClientItem []
  let suggs := sortByFrequencyDesc (entries.map (fun e =>
    { description := e.description,
      quantity := jsRound ((e.quantities.foldl (· + ·) 0 / (e.quantities.length : ℚ)) * 10) / 10,
      rate := e.rates.headD 0,
      frequency := e.count,
      confidence := min 95 (50 + (e.count : ℚ) * 10) }))
  applyFilter description suggs

/-- User-wide fallback path of `suggestLineItems`: aggregate the items of
the user's 100 most recent invoices; suggested quantity is the constant 1,
the rate the first pushed rate, confidence `min(70, 30 + 5*count)`; sort by
frequency descending and filter. -/
def fallbackSuggestions (userId : String) (description : Option String)
    (db : DB) : List Suggestion :=
  let allInvoices := (db.invoices.filter (fun i => decide (i.userId = userId))).take 100
  let entries := (allInvoices.flatMap Invoice.items).foldl addGlobalItem []
  let suggs := sortByFrequencyDesc (entries.map (fun e =>
    { description := e.description,
      quantity := 1,
      rate := e.rates.headD 0,
      frequency := e.count,
      confidence := min 70 (30 + (e.count : ℚ) * 5) }))
  applyFilter description suggs

/-- `suggestLineItems`: the client-specific suggestions when any survive
the filter, otherwise the user-wide fallback; top 10. -/
def suggestLineItems (userId clientId : String) (description : Option String)
    (db : DB) : List Suggestion :=
  let suggestions := clientSuggestions userId clientId description db
  if suggestions = [] then (fallbackSuggestions userId description db).take 10
  else suggestions.take 10

/-- Score of one candidate item against the first existing item with a
matching description: 1 for description+rate+quantity, 0.7 for
description+rate, 0.4 for description only (the inner loop breaks on the
first description match). -/
def itemMatchScore (n : ItemInput) : List InvoiceItem → ℚ
  | [] => 0
  | e :: rest =>
    if lowerTrim n.description = lowerTrim e.description then
      if |n.rate - e.rate| < 1 / 100 then
        if |n.quantity - e.quantity| < 1 / 100 then 1 else 7 / 10
      else 2 / 5
    else itemMatchScore n rest

/-- The 0–100 pairwise similarity of `detectDuplicateInvoice`: a tiered
amount term (0–40), a tiered date-proximity term (0–20) and a scaled
item-overlap term (0–40, rounded). -/
def similarityScore (total issueDate : ℚ) (items : List ItemInput)
    (inv : Invoice) : ℚ :=
  let amountPoints : ℚ :=
    let amountDiff := |inv.total - total| / max (max inv.total total) 1
    if amountDiff = 0 then 40
    else if amountDiff < 1 / 100 then 35
    else if amountDiff < 5 / 100 then 20
    else if amountDiff < 1 / 10 then 10
    else 0
  let datePoints : ℚ :=
    let daysDiff := |inv.issueDate - issueDate|
    if daysDiff < 1 then 20
    else if daysDiff < 3 then 15
    else if daysDiff < 7 then 10
    else if daysDiff < 14 then 5
    else 0
  let itemPoints : ℚ :=
    if items ≠ [] ∧ inv.items ≠ [] then
      let matched := items.foldl (fun acc n => acc + itemMatchScore n inv.items) 0
      jsRound (matched / (max items.length inv.items.length : ℕ) * 40)
    else 0
  amountPoints + datePoints + itemPoints

/-- An entry of `DuplicateCheck.similarInvoices` (`date` keeps the raw
issue date; the source renders it as an ISO day string). -/
structure SimilarEntry where
  id : String
  number : String
  total : ℚ
  date : ℚ
  similarity : ℚ
deriving DecidableEq, Repr

/-- Descending-by-similarity order used by
`sort((a, b) => b.similarity - a.similarity)`. -/
def simRel (a b : SimilarEntry) : Prop := b.similarity ≤ a.similarity

instance : DecidableRel simRel := fun a b => by unfold simRel; infer_instance

/-- Stable descending sort by similarity. -/
def sortBySimilarityDesc (l : List SimilarEntry) : List SimilarEntry :=
  l.insertionSort simRel

/-- Result of `detectDuplicateInvoice`. -/
structure DuplicateCheck where
  isDuplicate : Bool
  confidence : ℚ
  similarInvoices : List SimilarEntry
  reason : String
deriving Repr

/-- The `±30`-day, same-client, non-cancelled window queried by
`detectDuplicateInvoice`. -/
def relevantInvoices (userId clientId : String) (issueDate : ℚ) (db : DB) :
    List Invoice :=
  db.invoices.filter (fun i => decide (i.userId = userId ∧ i.clientId = clientId ∧
    issueDate - 30 ≤ i.issueDate ∧ i.issueDate ≤ issueDate + 30 ∧
    i.status ≠ Status.cancelled))

/-- The `similarInvoices` entry pushed for an invoice scoring `s`. -/
def mkSimilarEntry (s : ℚ) (inv : Invoice) : SimilarEntry :=
  ⟨inv.id, inv.number, inv.total, inv.issueDate, s⟩

/-- The `similarity >= 30` collection loop of `detectDuplicateInvoice`. -/
def collectSimilar (total issueDate : ℚ) (items : List ItemInput)
    (l : List Invoice) : List SimilarEntry :=
  l.filterMap (fun inv =>
    let s := similarityScore total issueDate items inv
    if 30 ≤ s then some (mkSimilarEntry s inv) else none)

/-- `detectDuplicateInvoice`: with an empty window return not-duplicate at
confidence 95; otherwise keep pairs scoring ≥ 30 sorted descending, flag a
duplicate when any similarity is ≥ 75, and report confidence
`highest` when duplicate else `95 − 0.5 × highest` (the reason strings are
kept textually close to the source; its locale currency/date formatting is
abstracted away). -/
def detectDuplicateInvoice (userId clientId : String) (total issueDate : ℚ)
    (items : List ItemInput) (db : DB) : DuplicateCheck :=
  let existing := relevantInvoices userId clientId issueDate db
  if existing = [] then
    { isDuplicate := false, confidence := 95, similarInvoices := [],
      reason := "No similar invoices found for this client in the same time period." }
  else
    let collected := collectSimilar total issueDate items existing
    let sorted := sortBySimilarityDesc collected
    let isDup := sorted.any (fun e => decide (75 ≤ e.similarity))
    let highest := ((sorted.head?).map SimilarEntry.similarity).getD 0
    let reason : String :=
      match sorted with
      | [] => "No similar invoices found for this client in the same time period."
      | m :: rest =>
        if isDup then
          "High similarity (" ++ toString m.similarity ++ "%) with invoice " ++
            m.number ++ ". This may be a duplicate."
        else
          "Found " ++ toString (rest.length + 1) ++
            " similar invoice(s) but no exact duplicates. Highest similarity: " ++
            toString m.similarity ++ "%."
    { isDuplicate := isDup,
      confidence := if isDup then highest else 95 - highest * (1 / 2),
      similarInvoices := sorted.take 5,
      reason := reason }

/-! ## Theorems -/

/-- Helper: the freshly materialized items satisfy `amount = quantity × rate`,
and the recomputed header fields satisfy the stored-total equations. -/
theorem mkItems_amounts (its : List ItemInput) :
    ∀ it ∈ mkItems its, it.amount = it.quantity * it.rate := by
  intro it hit
  simp only [mkItems, List.mem_map] at hit
  obtain ⟨a, _, rfl⟩ := hit
  rfl

/-- C1: every invoice produced by `createInvoice` satisfies the stored-total
equations (`amount = quantity × rate`, `subtotal = Σ amount`,
`tax = subtotal × taxRate/100`, `total = subtotal + tax`); `updateInvoice`
preserves them (recomputing them whenever items are replaced), and whenever
a tax rate is supplied — with or without items, so in particular on the
taxRate-only path — the tax and total are recomputed from it
unconditionally. -/
theorem C1_totals_consistent (user : User) (input : CreateInput)
    (freshId : String) (db : DB) (upUser : User) (upId : String)
    (upInput : UpdateInput) (updb : DB) :
    (∀ inv db', createInvoice user input freshId db = (Except.ok inv, db') →
      calcInvariant inv) ∧
    (∀ existing, lookupInvoice upUser.id upId updb = some existing →
      calcInvariant existing →
      ∀ inv db', updateInvoice upUser upId upInput updb = (Except.ok inv, db') →
        calcInvariant inv) ∧
    (∀ tr, upInput.taxRate = some tr →
      ∀ inv db', updateInvoice upUser upId upInput updb = (Except.ok inv, db') →
        inv.taxRate = tr ∧ inv.tax = inv.subtotal * (tr / 100) ∧
        inv.total = inv.subtotal + inv.tax) := by
  refine ⟨?_, ?_, ?_⟩
  · intro inv db' h
    unfold createInvoice at h
    split at h
    · simp at h
    · simp only [Prod.mk.injEq, Except.ok.injEq] at h
      obtain ⟨rfl, rfl⟩ := h
      exact ⟨mkItems_amounts _, rfl, rfl, rfl⟩
  · intro existing hlook hcalc inv db' h
    obtain ⟨hamt, hsub, htax, htot⟩ := hcalc
    unfold updateInvoice at h
    simp only [hlook] at h
    split at h
    · simp at h
    · split at h
      · simp only [Prod.mk.injEq, Except.ok.injEq] at h
        obtain ⟨rfl, rfl⟩ := h
        exact ⟨mkItems_amounts _, rfl, rfl, rfl⟩
      · split at h
        · simp only [Prod.mk.injEq, Except.ok.injEq] at h
          obtain ⟨rfl, rfl⟩ := h
          refine ⟨?_, ?_, rfl, rfl⟩
          · intro it hit
            exact hamt it (by simpa [applyBasic] using hit)
          · simpa [applyBasic] using hsub
        · simp only [Prod.mk.injEq, Except.ok.injEq] at h
          obtain ⟨rfl, rfl⟩ := h
          refine ⟨?_, ?_, ?_, ?_⟩
          · intro it hit
            exact hamt it (by simpa [applyBasic] using hit)
          · simpa [applyBasic] using hsub
          · simpa [applyBasic] using htax
          · simpa [applyBasic] using htot
  · intro tr htr inv db' h
    unfold updateInvoice at h
    cases hlook : lookupInvoice upUser.id upId updb with
    | none => simp only [hlook] at h; simp at h
    | some existing =>
      simp only [hlook] at h
      split at h
      · simp at h
      · split at h
        · simp only [htr, Option.getD_some, Prod.mk.injEq, Except.ok.injEq] at h
          obtain ⟨rfl, rfl⟩ := h
          exact ⟨rfl, rfl, rfl⟩
        · split at h
          case _ tr' heq2 =>
            rw [htr] at heq2
            cases heq2
            simp only [Prod.mk.injEq, Except.ok.injEq] at h
            obtain ⟨rfl, rfl⟩ := h
            exact ⟨rfl, rfl, rfl⟩
          case _ heq2 =>
            rw [htr] at heq2
            cases heq2

/-! ### Concrete example data used by the witnesses -/

/-- Example user. -/
def exUser : User := ⟨"u1", 0⟩

/-- Example invoice satisfying the stored-total equations:
2 × 50 = 100 subtotal, 10% tax = 10, total 110. -/
def exInv1 : Invoice :=
  ⟨"i1", "INV-001", Status.draft, 0, 30, 100, 10, 10, 110, none, none, "USD",
   0, none, "c1", "u1", [⟨"Design", 2, 50, 100⟩]⟩

/-- Example store without invoices. -/
def exDB0 : DB := ⟨[exUser], [], [], []⟩

/-- Example store holding `exInv1`. -/
def exDB1 : DB := ⟨[exUser], [], [exInv1], []⟩

/-- Example creation request: one item 2 × 50 at 10% tax. -/
def exCreateInput : CreateInput :=
  ⟨"c1", 0, 30, none, none, "USD", 10, Status.draft, [⟨"Design", 2, 50⟩]⟩

/-- Example update request: replace the items with 1 × 200 and set a 5%
tax rate. -/
def exUpdateInput : UpdateInput :=
  ⟨none, none, none, none, none, none, some 5, none, some [⟨"Dev", 1, 200⟩]⟩

/-- The invoice `createInvoice exUser exCreateInput "i2" exDB0` produces. -/
def exCreatedInvoice : Invoice :=
  ⟨"i2", "INV-001", Status.draft, 0, 30, 100, 10, 10, 110, none, none, "USD",
   0, none, "c1", "u1", [⟨"Design", 2, 50, 100⟩]⟩

/-- The invoice `updateInvoice exUser "i1" exUpdateInput exDB1` produces. -/
def exUpdatedInvoice : Invoice :=
  ⟨"i1", "INV-001", Status.draft, 0, 30, 200, 5, 10, 210, none, none, "USD",
   0, none, "c1", "u1", [⟨"Dev", 1, 200, 200⟩]⟩

/-- Evaluation fact: zero-padding of the first invoice number. -/
theorem pad3_one : pad3 1 = "001" := by decide

/-- Evaluation fact: `createInvoice` on the example request. -/
theorem createInvoice_ex_eval :
    createInvoice exUser exCreateInput "i2" exDB0 =
      (Except.ok exCreatedInvoice, ⟨[exUser], [], [exCreatedInvoice], []⟩) := by
  norm_num [createInvoice, validCreate, validItem, mkItems, itemsSubtotal,
    parseInvNumber, pad3_one, exUser, exCreateInput, exDB0, exCreatedInvoice,
    show (("c1" : String) = "") = False from by decide,
    show (("Design" : String) = "") = False from by decide,
    show ("INV-" ++ "001" : String) = "INV-001" from by decide]

/-- Evaluation fact: `lookupInvoice` finds the example invoice. -/
theorem lookupInvoice_ex_eval :
    lookupInvoice exUser.id "i1" exDB1 = some exInv1 := by
  simp [lookupInvoice, exUser, exDB1, exInv1]

/-- Evaluation fact: the example invoice satisfies the stored-total
equations. -/
theorem exInv1_calcInvariant : calcInvariant exInv1 := by
  norm_num [calcInvariant, itemsSubtotal, exInv1]

/-- Evaluation fact: `updateInvoice` on the example request. -/
theorem updateInvoice_ex_eval :
    updateInvoice exUser "i1" exUpdateInput exDB1 =
      (Except.ok exUpdatedInvoice, ⟨[exUser], [], [exUpdatedInvoice], []⟩) := by
  unfold updateInvoice
  rw [lookupInvoice_ex_eval]
  norm_num [validUpdate, validItem, applyBasic, mkItems, itemsSubtotal,
    replaceInvoice, exUser, exDB1, exInv1, exUpdateInput, exUpdatedInvoice,
    show (("Dev" : String) = "") = False from by decide]

/-- Witness for C1: the created and the updated example invoices both
satisfy the stored-total equations, and the updated one carries the
requested 5% tax rate recomputed into tax and total. -/
theorem C1_totals_consistent_witness :
    calcInvariant exCreatedInvoice ∧ calcInvariant exUpdatedInvoice ∧
    (exUpdatedInvoice.taxRate = 5 ∧
     exUpdatedInvoice.tax = exUpdatedInvoice.subtotal * (5 / 100) ∧
     exUpdatedInvoice.total = exUpdatedInvoice.subtotal + exUpdatedInvoice.tax) := by
  refine ⟨?_, ?_, ?_⟩
  · exact (C1_totals_consistent exUser exCreateInput "i2" exDB0 exUser "i1"
      exUpdateInput exDB1).1 exCreatedInvoice ⟨[exUser], [], [exCreatedInvoice], []⟩
      createInvoice_ex_eval
  · exact (C1_totals_consistent exUser exCreateInput "i2" exDB0 exUser "i1"
      exUpdateInput exDB1).2.1 exInv1 lookupInvoice_ex_eval exInv1_calcInvariant
      exUpdatedInvoice ⟨[exUser], [], [exUpdatedInvoice], []⟩ updateInvoice_ex_eval
  · exact (C1_totals_consistent exUser exCreateInput "i2" exDB0 exUser "i1"
      exUpdateInput exDB1).2.2 5 rfl exUpdatedInvoice
      ⟨[exUser], [], [exUpdatedInvoice], []⟩ updateInvoice_ex_eval

/-- Helper: after `setStatus id st`, every invoice in the store carrying
that id has status `st`. -/
theorem setStatus_mem (id : String) (st : Status) (db : DB) :
    ∀ inv' ∈ (setStatus id st db).invoices, inv'.id = id → inv'.status = st := by
  intro inv' h hid
  simp only [setStatus, List.mem_map] at h
  obtain ⟨i, _, rfl⟩ := h
  by_cases hii : i.id = id
  · simp [hii]
  · simp only [if_neg hii] at hid
    exact absurd hid hii

/-- C2: when an owned invoice is found, `recordPayment` rejects a request
whose amount is non-positive or would push the cumulative paid beyond the
invoice total, and on such a rejection the store — the invoice and its
payments included — is returned unchanged. -/
theorem C2_overpayment_rejected (user : User) (id : String)
    (body : PaymentBody) (now : ℚ) (db : DB) (invoice : Invoice)
    (hfound : lookupInvoice user.id id db = some invoice)
    (hrej : body.amount ≤ 0 ∨
      invoice.total < sumAmounts (paymentsFor id db) + body.amount) :
    (∃ msg, (recordPayment user id body now db).1 = Except.error msg) ∧
    (recordPayment user id body now db).2 = db := by
  simp only [recordPayment, hfound]
  by_cases hv : validPaymentBody body = true
  · have h0 : 0 < body.amount := by
      have := hv
      simp only [validPaymentBody, Bool.and_eq_true, decide_eq_true_eq] at this
      exact this.1
    have hover : invoice.total < sumAmounts (paymentsFor id db) + body.amount := by
      rcases hrej with h | h
      · exact absurd h0 (not_lt.mpr h)
      · exact h
    simp [hv, if_pos hover]
  · have hv' : validPaymentBody body = false := by
      simpa using hv
    simp [hv']

/-- C3: when an owned invoice is found and the request carries a valid
method and an amount equal to the exact remaining balance (which is
positive), `recordPayment` accepts it and every stored invoice with that
id ends up with status paid — the `|cumulative − total| < 0.01` branch is
necessarily taken, the cumulative being exactly the total. -/
theorem C3_exact_balance_marks_paid (user : User) (id : String)
    (body : PaymentBody) (now : ℚ) (db : DB) (invoice : Invoice)
    (hfound : lookupInvoice user.id id db = some invoice)
    (hmethod : body.method ∈ validMethods)
    (hamount : body.amount = invoice.total - sumAmounts (paymentsFor id db))
    (hpos : 0 < body.amount) :
    (∃ p, (recordPayment user id body now db).1 = Except.ok p) ∧
    ∀ inv' ∈ (recordPayment user id body now db).2.invoices,
      inv'.id = id → inv'.status = Status.paid := by
  have hv : validPaymentBody body = true := by
    simp only [validPaymentBody, Bool.and_eq_true, decide_eq_true_eq]
    exact ⟨hpos, hmethod⟩
  have hsum : sumAmounts (paymentsFor id db) + body.amount = invoice.total := by
    rw [hamount]; ring
  simp only [recordPayment, hfound, hv, Bool.not_true, Bool.false_eq_true,
    if_false, hsum]
  have hnot : ¬ invoice.total < invoice.total := lt_irrefl _
  have htol : |invoice.total - invoice.total| < 1 / 100 := by
    simp
  rw [if_neg hnot, if_pos htol]
  exact ⟨⟨_, rfl⟩, setStatus_mem id Status.paid _⟩

/-- C10: with an owned invoice found, `recordPayment` fails exactly when
the amount is non-positive, the method unknown, or the payment would
exceed the invoice total — the invoice's status plays no role — and on any
accepted payment whose cumulative comes within 0.01 of the total the
invoice is marked paid, whatever status it had. -/
theorem C10_no_status_precondition (user : User) (id : String)
    (body : PaymentBody) (now : ℚ) (db : DB) :
    (lookupInvoice user.id id db = none →
      (∃ msg, (recordPayment user id body now db).1 = Except.error msg) ∧
      (recordPayment user id body now db).2 = db) ∧
    (∀ invoice, lookupInvoice user.id id db = some invoice →
      ((∃ msg, (recordPayment user id body now db).1 = Except.error msg) ↔
        (body.amount ≤ 0 ∨ body.method ∉ validMethods ∨
          invoice.total < sumAmounts (paymentsFor id db) + body.amount)) ∧
      ((∃ p, (recordPayment user id body now db).1 = Except.ok p) →
        |sumAmounts (paymentsFor id db) + body.amount - invoice.total| < 1 / 100 →
        ∀ inv' ∈ (recordPayment user id body now db).2.invoices,
          inv'.id = id → inv'.status = Status.paid)) := by
  constructor
  · intro hnone
    simp only [recordPayment, hnone]
    exact ⟨⟨_, rfl⟩, trivial⟩
  intro invoice hfound
  simp only [recordPayment, hfound]
  by_cases hv : validPaymentBody body = true
  · have hνν : 0 < body.amount ∧ body.method ∈ validMethods := by
      have := hv
      simp only [validPaymentBody, Bool.and_eq_true, decide_eq_true_eq] at this
      exact this
    by_cases hover : invoice.total < sumAmounts (paymentsFor id db) + body.amount
    · constructor
      · simp only [hv, Bool.not_true, Bool.false_eq_true, if_false, if_pos hover]
        simp [hover]
      · simp only [hv, Bool.not_true, Bool.false_eq_true, if_false, if_pos hover]
        intro hok
        obtain ⟨p, hp⟩ := hok
        simp at hp
    · constructor
      · simp only [hv, Bool.not_true, Bool.false_eq_true, if_false, if_neg hover]
        constructor
        · intro hex
          obtain ⟨msg, hmsg⟩ := hex
          simp at hmsg
        · intro habs
          rcases habs with h | h | h
          · exact absurd hνν.1 (not_lt.mpr h)
          · exact absurd hνν.2 h
          · exact absurd h hover
      · intro _ htol
        simp only [hv, Bool.not_true, Bool.false_eq_true, if_false, if_neg hover,
          if_pos htol]
        exact setStatus_mem id Status.paid _
  · have hv' : validPaymentBody body = false := by simpa using hv
    have hfail : body.amount ≤ 0 ∨ body.method ∉ validMethods := by
      have := hv'
      simp only [validPaymentBody, Bool.and_eq_false_iff, decide_eq_false_iff_not,
        not_lt] at this
      rcases this with h | h
      · exact Or.inl h
      · exact Or.inr h
    constructor
    · simp only [hv']
      simp [hfail.elim Or.inl (fun h => Or.inr (Or.inl h))]
    · simp only [hv']
      intro hok
      obtain ⟨p, hp⟩ := hok
      simp at hp

/-- Example over-payment request: 200 against a 110 total. -/
def exPayOver : PaymentBody := ⟨200, "cash", none, none⟩

/-- Example exact-balance payment request: 110 against a 110 total. -/
def exPay110 : PaymentBody := ⟨110, "cash", none, some 7⟩

/-- The payment `recordPayment` persists for `exPay110`. -/
def exPayment110 : Payment := ⟨"i1", 110, "cash", none, none, none, "completed", 7⟩

/-- The example invoice after being marked paid. -/
def exInv1Paid : Invoice :=
  ⟨"i1", "INV-001", Status.paid, 0, 30, 100, 10, 10, 110, none, none, "USD",
   0, none, "c1", "u1", [⟨"Design", 2, 50, 100⟩]⟩

/-- Evaluation fact: the example exact-balance body passes validation. -/
theorem exPay110_valid :
    validPaymentBody
      { amount := 110
        method := "cash"
        reference := none
        paidAt := some 7 } = true := by
  simp only [validPaymentBody, Bool.and_eq_true, decide_eq_true_eq]
  exact ⟨by norm_num, by decide⟩

/-- Evaluation fact: `recordPayment` on the example exact-balance request
persists the payment and marks the invoice paid. -/
theorem recordPayment_ex_eval :
    recordPayment exUser "i1" exPay110 7 exDB1 =
      (Except.ok exPayment110, ⟨[exUser], [], [exInv1Paid], [exPayment110]⟩) := by
  unfold recordPayment
  rw [lookupInvoice_ex_eval]
  norm_num [exPay110_valid, sumAmounts, paymentsFor, setStatus, exPay110,
    exPayment110, exDB1, exInv1, exInv1Paid]

/-- Witness for C2: recording 200 against the 110-total example invoice is
rejected and the store is unchanged. -/
theorem C2_overpayment_rejected_witness :
    (∃ msg, (recordPayment exUser "i1" exPayOver 0 exDB1).1 = Except.error msg) ∧
    (recordPayment exUser "i1" exPayOver 0 exDB1).2 = exDB1 :=
  C2_overpayment_rejected exUser "i1" exPayOver 0 exDB1 exInv1 lookupInvoice_ex_eval
    (Or.inr (by norm_num [sumAmounts, paymentsFor, exDB1, exInv1, exPayOver]))

/-- Witness for C3: paying the exact 110 balance of the example invoice is
accepted and the stored invoice ends up paid. -/
theorem C3_exact_balance_marks_paid_witness :
    (∃ p, (recordPayment exUser "i1" exPay110 7 exDB1).1 = Except.ok p) ∧
    exInv1Paid.status = Status.paid := by
  have h := C3_exact_balance_marks_paid exUser "i1" exPay110 7 exDB1 exInv1
    lookupInvoice_ex_eval (by decide)
    (by norm_num [exPay110, sumAmounts, paymentsFor, exDB1, exInv1])
    (by norm_num [exPay110])
  refine ⟨h.1, h.2 exInv1Paid ?_ rfl⟩
  rw [show (recordPayment exUser "i1" exPay110 7 exDB1).2 =
      ⟨[exUser], [], [exInv1Paid], [exPayment110]⟩ from by rw [recordPayment_ex_eval]]
  simp

/-- Witness for C10: against the example paid-status invoice (status plays
no role), an over-payment is the only obstruction; recording the exact 110
balance against the draft example invoice is accepted and marks it paid. -/
theorem C10_no_status_precondition_witness :
    ((∃ msg, (recordPayment exUser "i1" exPay110 7 exDB1).1 = Except.error msg) ↔
      ((110 : ℚ) ≤ 0 ∨ ("cash" : String) ∉ validMethods ∨
        exInv1.total < sumAmounts (paymentsFor "i1" exDB1) + (110 : ℚ))) ∧
    exInv1Paid.status = Status.paid := by
  have h := (C10_no_status_precondition exUser "i1" exPay110 7 exDB1).2 exInv1
    lookupInvoice_ex_eval
  refine ⟨h.1, ?_⟩
  refine h.2 ⟨exPayment110, by rw [recordPayment_ex_eval]⟩
    (by norm_num [exPay110, sumAmounts, paymentsFor, exDB1, exInv1])
    exInv1Paid ?_ rfl
  rw [show (recordPayment exUser "i1" exPay110 7 exDB1).2 =
      ⟨[exUser], [], [exInv1Paid], [exPayment110]⟩ from by rw [recordPayment_ex_eval]]
  simp

/-- C6: with the invoice found, `processOnlinePayment` is rejected outright
— store unchanged — when the status is already paid or cancelled or the
balance due is non-positive; otherwise it appends exactly one payment,
whose amount is the entire remaining balance and which carries the
synthetic gateway id, and every stored invoice with that id is marked
paid. -/
theorem C6_online_payment_full_balance (id : String)
    (method payerName : Option String) (gatewayId : String) (now : ℚ)
    (db : DB) (invoice : Invoice)
    (hfound : (db.invoices.filter (fun i => decide (i.id = id))).head? = some invoice) :
    ((invoice.status = Status.paid ∨ invoice.status = Status.cancelled ∨
        invoice.total - sumAmounts (paymentsFor id db) ≤ 0) →
      (∃ msg, (processOnlinePayment id method payerName gatewayId now db).1 =
        Except.error msg) ∧
      (processOnlinePayment id method payerName gatewayId now db).2 = db) ∧
    (invoice.status ≠ Status.paid → invoice.status ≠ Status.cancelled →
      0 < invoice.total - sumAmounts (paymentsFor id db) →
      ∃ p, (processOnlinePayment id method payerName gatewayId now db).1 =
          Except.ok p ∧
        p.amount = invoice.total - sumAmounts (paymentsFor id db) ∧
        p.gatewayPaymentId = some gatewayId ∧
        (processOnlinePayment id method payerName gatewayId now db).2.payments =
          p :: db.payments ∧
        ∀ inv' ∈ (processOnlinePayment id method payerName gatewayId now db).2.invoices,
          inv'.id = id → inv'.status = Status.paid) := by
  constructor
  · intro hrej
    simp only [processOnlinePayment, hfound]
    by_cases h1 : invoice.status = Status.paid
    · simp [h1]
    · by_cases h2 : invoice.status = Status.cancelled
      · simp [h1, h2]
      · have h3 : invoice.total - sumAmounts (paymentsFor id db) ≤ 0 := by
          rcases hrej with h | h | h
          · exact absurd h h1
          · exact absurd h h2
          · exact h
        have h3' : invoice.total ≤ sumAmounts (paymentsFor id db) := by linarith
        simp [h1, h2, h3']
  · intro h1 h2 h3
    simp only [processOnlinePayment, hfound]
    rw [if_neg h1, if_neg h2, if_neg (not_le.mpr h3)]
    exact ⟨_, rfl, rfl, rfl, rfl, setStatus_mem id Status.paid _⟩

/-- Witness for C6: the draft example invoice with a 110 balance is paid in
full online; the created payment carries the gateway id and the store's
invoice is marked paid. -/
theorem C6_online_payment_full_balance_witness :
    ∃ p, (processOnlinePayment "i1" none none "gw1" 7 exDB1).1 = Except.ok p ∧
      p.amount = exInv1.total - sumAmounts (paymentsFor "i1" exDB1) ∧
      p.gatewayPaymentId = some "gw1" ∧
      (processOnlinePayment "i1" none none "gw1" 7 exDB1).2.payments =
        p :: exDB1.payments ∧
      ∀ inv' ∈ (processOnlinePayment "i1" none none "gw1" 7 exDB1).2.invoices,
        inv'.id = "i1" → inv'.status = Status.paid :=
  (C6_online_payment_full_balance "i1" none none "gw1" 7 exDB1 exInv1
      (by simp [exDB1, exInv1])).2
    (by simp [exInv1]) (by simp [exInv1])
    (by norm_num [exInv1, sumAmounts, paymentsFor, exDB1])

/-- Helper: after a sweep, no invoice matches the sweep filter at the same
`now` any more. -/
theorem sweep_clears_filter (userId : String) (now : ℚ) (db : DB) :
    ∀ i ∈ (checkOverdueInvoices userId now db).2.invoices,
      ¬ sweepHits userId now i := by
  intro i hi
  simp only [checkOverdueInvoices, List.mem_map] at hi
  obtain ⟨j, _, rfl⟩ := hi
  by_cases hj : sweepHits userId now j
  · rw [if_pos hj]
    intro hcon
    exact absurd hcon.2.1 (by simp)
  · rw [if_neg hj]
    exact hj

/-- C7 (amended): the sweep flips exactly the user's sent invoices with
`dueDate < now` to overdue, leaves every other invoice (and the other
tables) unchanged, returns the affected count, and a second run at the
same `now` performs 0 additional transitions. -/
theorem C7_sweep_overdue_spec (userId : String) (now : ℚ) (db : DB) :
    (checkOverdueInvoices userId now db).2.invoices.length = db.invoices.length ∧
    (∀ k (h : k < db.invoices.length)
        (h' : k < (checkOverdueInvoices userId now db).2.invoices.length),
      (sweepHits userId now (db.invoices.get ⟨k, h⟩) →
        (checkOverdueInvoices userId now db).2.invoices.get ⟨k, h'⟩ =
          { db.invoices.get ⟨k, h⟩ with status := Status.overdue }) ∧
      (¬ sweepHits userId now (db.invoices.get ⟨k, h⟩) →
        (checkOverdueInvoices userId now db).2.invoices.get ⟨k, h'⟩ =
          db.invoices.get ⟨k, h⟩)) ∧
    (checkOverdueInvoices userId now db).2.users = db.users ∧
    (checkOverdueInvoices userId now db).2.payments = db.payments ∧
    (checkOverdueInvoices userId now db).1 =
      db.invoices.countP (fun i => decide (sweepHits userId now i)) ∧
    (checkOverdueInvoices userId now ((checkOverdueInvoices userId now db).2)).1 = 0 := by
  refine ⟨by simp [checkOverdueInvoices], ?_, rfl, rfl, rfl, ?_⟩
  · intro k h h'
    constructor
    · intro hhit
      simp only [checkOverdueInvoices, List.get_map]
      rw [if_pos hhit]
    · intro hmiss
      simp only [checkOverdueInvoices, List.get_map]
      rw [if_neg hmiss]
  · have hclear := sweep_clears_filter userId now db
    simp only [checkOverdueInvoices]
    rw [List.countP_eq_zero]
    intro i hi
    simpa using hclear i hi

/-- A sent invoice due at day 10, for the C7 counterexample. -/
def cInv7 : Invoice :=
  ⟨"s1", "INV-001", Status.sent, 0, 10, 0, 0, 0, 0, none, none, "USD",
   0, none, "c1", "u1", []⟩

/-- Store holding only `cInv7`. -/
def cDB7 : DB := ⟨[], [], [cInv7], []⟩

/-- Counterexample to C7 as stated: a first sweep at day 5, immediately
followed by a second sweep at the later day 20 with nothing interleaved,
performs 1 additional transition, not 0 — the invoice became due between
the two nows. -/
theorem C7_sweep_counterexample :
    (checkOverdueInvoices "u1" 5 cDB7).1 = 0 ∧
    (checkOverdueInvoices "u1" 20 ((checkOverdueInvoices "u1" 5 cDB7).2)).1 = 1 ∧
    (1 : ℕ) ≠ 0 := by
  refine ⟨?_, ?_, by decide⟩
  · norm_num [checkOverdueInvoices, cDB7, cInv7, sweepHits]
  · norm_num [checkOverdueInvoices, cDB7, cInv7, sweepHits]

/-- Witness for C7: sweeping the example store at day 20 flips the sent
invoice due at day 10, reports count 1, and a second sweep at the same
`now` reports 0. -/
theorem C7_sweep_overdue_spec_witness :
    (checkOverdueInvoices "u1" 20 cDB7).2.invoices.get
        ⟨0, by simp [checkOverdueInvoices, cDB7]⟩ =
      { cInv7 with status := Status.overdue } ∧
    (checkOverdueInvoices "u1" 20 ((checkOverdueInvoices "u1" 20 cDB7).2)).1 = 0 := by
  have h := C7_sweep_overdue_spec "u1" 20 cDB7
  refine ⟨?_, h.2.2.2.2.2⟩
  have h0 := (h.2.1 0 (by simp [cDB7]) (by simp [checkOverdueInvoices, cDB7])).1
  have hhit : sweepHits "u1" 20 (cDB7.invoices.get ⟨0, by simp [cDB7]⟩) := by
    simp [cDB7, cInv7, sweepHits]
    norm_num
  have := h0 hhit
  simpa [cDB7] using this

/-- Helper: copying an item field-by-field is the identity. -/
theorem copyItems_id (l : List InvoiceItem) :
    l.map (fun it =>
      ({ description := it.description
         quantity := it.quantity
         rate := it.rate
         amount := it.amount } : InvoiceItem)) = l := by
  induction l with
  | nil => rfl
  | cons a t ih => cases a; simp [ih]

/-- Counterexample to C5 as stated: duplicating the example invoice
numbered `INV-001` (created by the creation path, which does not advance
the per-user counter, still 0) yields a duplicate numbered
`INV-(0+1) = INV-001` — the same number as the source. -/
theorem C5_duplicate_counterexample :
    exInv1.number = "INV-001" ∧
    ((duplicateInvoice exUser "i1" "i9" 100 exDB1).1.map Invoice.number) =
      Except.ok "INV-001" := by
  constructor
  · rfl
  · unfold duplicateInvoice
    rw [lookupInvoice_ex_eval]
    simp [exDB1, exUser, exInv1, pad3_one, Except.map]

/-- C5 (amended): duplicating a found invoice with a fresh id yields a new
draft whose id is the fresh id (different from the source's), whose item
set, notes, terms, client and totals are identical to the source's, whose
issueDate is `now` and dueDate `now + 30`, which has zero payments, and
whose number is `INV-` of the user's `invoiceCounter + 1` — a number that
is not in general different from the source's, since the creation path
numbers invoices without advancing that counter. -/
theorem C5_duplicate_spec (user : User) (id freshId : String) (now : ℚ)
    (db : DB) (invoice : Invoice)
    (hfound : lookupInvoice user.id id db = some invoice)
    (hfresh : freshId ≠ invoice.id)
    (hfreshPay : ∀ p ∈ db.payments, p.invoiceId ≠ freshId) :
    ∃ inv', (duplicateInvoice user id freshId now db).1 = Except.ok inv' ∧
      inv'.status = Status.draft ∧ inv'.id = freshId ∧ inv'.id ≠ invoice.id ∧
      inv'.items = invoice.items ∧ inv'.issueDate = now ∧
      inv'.dueDate = now + 30 ∧ inv'.clientId = invoice.clientId ∧
      inv'.number = "INV-" ++ pad3
        ((((db.users.filter (fun u => decide (u.id = user.id))).head?.map
          User.invoiceCounter).getD 0) + 1) ∧
      paymentsFor freshId (duplicateInvoice user id freshId now db).2 = [] := by
  simp only [duplicateInvoice, hfound]
  refine ⟨_, rfl, rfl, rfl, hfresh, copyItems_id _, rfl, rfl, rfl, rfl, ?_⟩
  simp only [paymentsFor, setCounter]
  rw [List.filter_eq_nil]
  intro p hp
  simpa using hfreshPay p hp

/-- Witness for C5 (amended): duplicating the example invoice with fresh
id `i9` at day 100 yields a draft with the fresh id, the same items,
issueDate 100, dueDate 130 and no payments. -/
theorem C5_duplicate_spec_witness :
    ∃ inv', (duplicateInvoice exUser "i1" "i9" 100 exDB1).1 = Except.ok inv' ∧
      inv'.status = Status.draft ∧ inv'.id = "i9" ∧ inv'.id ≠ exInv1.id ∧
      inv'.items = exInv1.items ∧ inv'.issueDate = 100 ∧
      inv'.dueDate = 100 + 30 ∧ inv'.clientId = exInv1.clientId ∧
      inv'.number = "INV-" ++ pad3
        ((((exDB1.users.filter (fun u => decide (u.id = exUser.id))).head?.map
          User.invoiceCounter).getD 0) + 1) ∧
      paymentsFor "i9" (duplicateInvoice exUser "i1" "i9" 100 exDB1).2 = [] :=
  C5_duplicate_spec exUser "i1" "i9" 100 exDB1 exInv1 lookupInvoice_ex_eval
    (by decide) (by simp [exDB1])

/-- Update request that only sets the status back to draft. -/
def exStatusToDraft : UpdateInput :=
  ⟨none, none, none, none, none, none, none, some Status.draft, none⟩

/-- Store holding only the paid example invoice. -/
def exDBPaid : DB := ⟨[exUser], [], [exInv1Paid], []⟩

/-- Evaluation fact: `lookupInvoice` finds the paid example invoice. -/
theorem lookupInvoice_paid_eval :
    lookupInvoice exUser.id "i1" exDBPaid = some exInv1Paid := by
  simp [lookupInvoice, exUser, exDBPaid, exInv1Paid]

/-- Counterexample to C4 as stated: `updateInvoice` imposes no status
guard, so a paid invoice's status is freely rewritten back to draft — paid
is not terminal under `updateInvoice`. -/
theorem C4_terminal_counterexample :
    exInv1Paid.status = Status.paid ∧
    ((updateInvoice exUser "i1" exStatusToDraft exDBPaid).1.map Invoice.status) =
      Except.ok Status.draft ∧
    Status.draft ≠ Status.paid := by
  refine ⟨rfl, ?_, by decide⟩
  unfold updateInvoice
  rw [lookupInvoice_paid_eval]
  simp [validUpdate, exStatusToDraft, applyBasic, Except.map]

/-- C4 (amended): for a paid or cancelled invoice, the send, remind and
overdue-sweep operations are terminal — send and remind reject it leaving
the store unchanged, and the sweep leaves it untouched; `updateInvoice`
and `recordPayment`, by contrast, impose no status guard (see the
counterexample). -/
theorem C4_send_remind_sweep_terminal (user : User) (id : String) (now : ℚ)
    (db : DB) (invoice : Invoice)
    (hfound : lookupInvoice user.id id db = some invoice)
    (hterm : invoice.status = Status.paid ∨ invoice.status = Status.cancelled) :
    ((∃ msg, (sendInvoice user id db).1 = Except.error msg) ∧
      (sendInvoice user id db).2 = db) ∧
    ((∃ msg, (remindInvoice user id now db).1 = Except.error msg) ∧
      (remindInvoice user id now db).2 = db) ∧
    (∀ k (h : k < db.invoices.length)
        (h' : k < (checkOverdueInvoices user.id now db).2.invoices.length),
      db.invoices.get ⟨k, h⟩ = invoice →
      (checkOverdueInvoices user.id now db).2.invoices.get ⟨k, h'⟩ = invoice) := by
  have hguard : invoice.status ≠ Status.draft ∧ invoice.status ≠ Status.sent := by
    rcases hterm with h | h <;> rw [h] <;> exact ⟨by decide, by decide⟩
  have hguard2 : invoice.status ≠ Status.sent ∧ invoice.status ≠ Status.overdue := by
    rcases hterm with h | h <;> rw [h] <;> exact ⟨by decide, by decide⟩
  refine ⟨?_, ?_, ?_⟩
  · simp only [sendInvoice, hfound]
    rw [if_pos hguard]
    exact ⟨⟨_, rfl⟩, rfl⟩
  · simp only [remindInvoice, hfound]
    rw [if_pos hguard2]
    exact ⟨⟨_, rfl⟩, rfl⟩
  · intro k h h' hk
    have hmiss : ¬ sweepHits user.id now (db.invoices.get ⟨k, h⟩) := by
      rw [hk]
      intro hcon
      exact absurd hcon.2.1 hguard.2
    simp only [checkOverdueInvoices, List.get_map]
    rw [if_neg hmiss, hk]

/-- Witness for C4 (amended): the paid example invoice is rejected by send
and remind (store unchanged) and survives a sweep untouched. -/
theorem C4_send_remind_sweep_terminal_witness :
    ((∃ msg, (sendInvoice exUser "i1" exDBPaid).1 = Except.error msg) ∧
      (sendInvoice exUser "i1" exDBPaid).2 = exDBPaid) ∧
    ((∃ msg, (remindInvoice exUser "i1" 50 exDBPaid).1 = Except.error msg) ∧
      (remindInvoice exUser "i1" 50 exDBPaid).2 = exDBPaid) ∧
    (checkOverdueInvoices exUser.id 50 exDBPaid).2.invoices.get
        ⟨0, by simp [checkOverdueInvoices, exDBPaid]⟩ = exInv1Paid := by
  have h := C4_send_remind_sweep_terminal exUser "i1" 50 exDBPaid exInv1Paid
    lookupInvoice_paid_eval (Or.inl rfl)
  refine ⟨h.1, h.2.1, ?_⟩
  exact h.2.2 0 (by simp [exDBPaid]) (by simp [checkOverdueInvoices, exDBPaid])
    (by simp [exDBPaid])

instance : IsTotal SimilarEntry simRel :=
  ⟨fun a b => le_total b.similarity a.similarity⟩

instance : IsTrans SimilarEntry simRel :=
  ⟨fun _ _ _ hab hbc => le_trans hbc hab⟩

/-- The `|| 0`-defaulted maximum the source reads off the head of the
descending-sorted list, as a fold. -/
def listMaxQ (l : List ℚ) : ℚ := l.foldr max 0

/-- Helper: every element is bounded by `listMaxQ`. -/
theorem le_listMaxQ (l : List ℚ) : ∀ x ∈ l, x ≤ listMaxQ l := by
  induction l with
  | nil => intro x hx; cases hx
  | cons a t ih =>
    intro x hx
    rcases List.mem_cons.mp hx with rfl | hx
    · exact le_max_left _ _
    · exact le_trans (ih x hx) (le_max_right _ _)

/-- Helper: `listMaxQ` is an upper bound below any common bound above 0. -/
theorem listMaxQ_le (l : List ℚ) (c : ℚ) (h0 : 0 ≤ c) (h : ∀ x ∈ l, x ≤ c) :
    listMaxQ l ≤ c := by
  induction l with
  | nil => exact h0
  | cons a t ih =>
    exact max_le (h a (List.mem_cons_self a t))
      (ih fun x hx => h x (List.mem_cons_of_mem a hx))

/-- Helper: the similarities collected are exactly the pair scores that
pass the ≥ 30 threshold, in order. -/
theorem collectSimilar_map_similarity (total issueDate : ℚ)
    (items : List ItemInput) (l : List Invoice) :
    (collectSimilar total issueDate items l).map SimilarEntry.similarity =
      (l.map (similarityScore total issueDate items)).filter
        (fun s => decide (30 ≤ s)) := by
  induction l with
  | nil => rfl
  | cons a t ih =>
    by_cases h : 30 ≤ similarityScore total issueDate items a
    · simpa [collectSimilar, List.filterMap_cons, h, mkSimilarEntry] using ih
    · simpa [collectSimilar, List.filterMap_cons, h] using ih

/-- Helper: every collected entry scores at least 30. -/
theorem collectSimilar_sim_ge (total issueDate : ℚ) (items : List ItemInput)
    (l : List Invoice) :
    ∀ e ∈ collectSimilar total issueDate items l, 30 ≤ e.similarity := by
  intro e he
  simp only [collectSimilar, List.mem_filterMap] at he
  obtain ⟨inv, _, hfeq⟩ := he
  by_cases h : 30 ≤ similarityScore total issueDate items inv
  · rw [if_pos h] at hfeq
    injection hfeq with h2
    subst h2
    exact h
  · rw [if_neg h] at hfeq
    cases hfeq

/-- Helper: a threshold ≥ 30 is reached among the collected entries
exactly when some window invoice's pair score reaches it. -/
theorem exists_entry_iff (total issueDate : ℚ) (items : List ItemInput)
    (l : List Invoice) (c : ℚ) (hc : 30 ≤ c) :
    (∃ e ∈ collectSimilar total issueDate items l, c ≤ e.similarity) ↔
      ∃ inv ∈ l, c ≤ similarityScore total issueDate items inv := by
  constructor
  · rintro ⟨e, he, hce⟩
    simp only [collectSimilar, List.mem_filterMap] at he
    obtain ⟨inv, hinv, hfeq⟩ := he
    by_cases h : 30 ≤ similarityScore total issueDate items inv
    · rw [if_pos h] at hfeq
      injection hfeq with h2
      subst h2
      exact ⟨inv, hinv, hce⟩
    · rw [if_neg h] at hfeq
      cases hfeq
  · rintro ⟨inv, hinv, hcinv⟩
    refine ⟨mkSimilarEntry (similarityScore total issueDate items inv) inv, ?_,
      hcinv⟩
    simp only [collectSimilar, List.mem_filterMap]
    exact ⟨inv, hinv, by rw [if_pos (le_trans hc hcinv)]⟩

/-- Helper: `any` of the ≥ 75 test over the sorted list is the existence
of a collected entry scoring ≥ 75. -/
theorem any_sorted_iff (l : List SimilarEntry) :
    ((sortBySimilarityDesc l).any (fun e => decide (75 ≤ e.similarity)) = true) ↔
      ∃ e ∈ l, 75 ≤ e.similarity := by
  rw [List.any_eq_true]
  constructor
  · rintro ⟨e, he, hp⟩
    exact ⟨e, (List.perm_insertionSort simRel l).mem_iff.mp he,
      of_decide_eq_true hp⟩
  · rintro ⟨e, he, hp⟩
    exact ⟨e, (List.perm_insertionSort simRel l).mem_iff.mpr he,
      decide_eq_true hp⟩

/-- Helper: the head similarity of the descending sort (0 when empty) is
the maximum collected similarity. -/
theorem sortedDesc_head_eq_max (l : List SimilarEntry)
    (h0 : ∀ e ∈ l, 0 ≤ e.similarity) :
    (((sortBySimilarityDesc l).head?).map SimilarEntry.similarity).getD 0 =
      listMaxQ (l.map SimilarEntry.similarity) := by
  have hperm : List.Perm (sortBySimilarityDesc l) l := List.perm_insertionSort _ _
  have hsorted : List.Sorted simRel (sortBySimilarityDesc l) :=
    List.sorted_insertionSort _ _
  cases hs : sortBySimilarityDesc l with
  | nil =>
    rw [hs] at hperm
    rw [(List.perm_nil.mp hperm.symm)]
    rfl
  | cons m t =>
    rw [hs] at hperm hsorted
    simp only [List.head?, Option.map_some, Option.getD_some]
    have hmem : m ∈ l := hperm.mem_iff.mp (List.mem_cons_self m t)
    apply le_antisymm
    · exact le_listMaxQ _ _ (List.mem_map_of_mem SimilarEntry.similarity hmem)
    · apply listMaxQ_le
      · exact h0 m hmem
      · intro x hx
        obtain ⟨e, he, rfl⟩ := List.mem_map.mp hx
        rcases List.mem_cons.mp (hperm.mem_iff.mpr he) with rfl | het
        · exact le_refl _
        · exact (List.sorted_cons.mp hsorted).1 e het

/-- C8: duplicate detection returns not-duplicate at confidence 95 for an
empty ±30-day window; otherwise it flags a duplicate exactly when some
pairwise similarity reaches 75, and its confidence is the highest
similarity among pairs scoring ≥ 30 when duplicate, else 95 minus half
that highest similarity. -/
theorem C8_detect_duplicate_spec (userId clientId : String)
    (total issueDate : ℚ) (items : List ItemInput) (db : DB) :
    ((relevantInvoices userId clientId issueDate db = []) →
      (detectDuplicateInvoice userId clientId total issueDate items db).isDuplicate
        = false ∧
      (detectDuplicateInvoice userId clientId total issueDate items db).confidence
        = 95) ∧
    ((detectDuplicateInvoice userId clientId total issueDate items db).isDuplicate
        = true ↔
      ∃ inv ∈ relevantInvoices userId clientId issueDate db,
        75 ≤ similarityScore total issueDate items inv) ∧
    ((detectDuplicateInvoice userId clientId total issueDate items db).confidence =
      if ∃ inv ∈ relevantInvoices userId clientId issueDate db,
          75 ≤ similarityScore total issueDate items inv
      then listMaxQ (((relevantInvoices userId clientId issueDate db).map
            (similarityScore total issueDate items)).filter (fun s => decide (30 ≤ s)))
      else 95 - listMaxQ (((relevantInvoices userId clientId issueDate db).map
            (similarityScore total issueDate items)).filter
              (fun s => decide (30 ≤ s))) * (1 / 2)) := by
  by_cases hE : relevantInvoices userId clientId issueDate db = []
  · refine ⟨fun _ => ?_, ?_, ?_⟩
    · unfold detectDuplicateInvoice
      rw [if_pos hE]
      exact ⟨rfl, rfl⟩
    · unfold detectDuplicateInvoice
      rw [if_pos hE, hE]
      simp
    · unfold detectDuplicateInvoice
      rw [if_pos hE, hE]
      simp only [List.map_nil, List.filter_nil]
      rw [if_neg (by simp)]
      show (95 : ℚ) = 95 - listMaxQ [] * (1 / 2)
      simp [listMaxQ]
  · have hbridge :
        ((sortBySimilarityDesc (collectSimilar total issueDate items
            (relevantInvoices userId clientId issueDate db))).any
          (fun e => decide (75 ≤ e.similarity)) = true) ↔
        ∃ inv ∈ relevantInvoices userId clientId issueDate db,
          75 ≤ similarityScore total issueDate items inv :=
      (any_sorted_iff _).trans
        (exists_entry_iff total issueDate items _ 75 (by norm_num))
    have hhigh :
        (((sortBySimilarityDesc (collectSimilar total issueDate items
            (relevantInvoices userId clientId issueDate db))).head?).map
          SimilarEntry.similarity).getD 0 =
        listMaxQ (((relevantInvoices userId clientId issueDate db).map
          (similarityScore total issueDate items)).filter
            (fun s => decide (30 ≤ s))) := by
      rw [sortedDesc_head_eq_max _ (fun e he =>
        le_trans (by norm_num) (collectSimilar_sim_ge total issueDate items _ e he))]
      rw [collectSimilar_map_similarity]
    refine ⟨fun h => absurd h hE, ?_, ?_⟩
    · unfold detectDuplicateInvoice
      rw [if_neg hE]
      exact hbridge
    · unfold detectDuplicateInvoice
      rw [if_neg hE]
      show (if (sortBySimilarityDesc (collectSimilar total issueDate items
          (relevantInvoices userId clientId issueDate db))).any
            (fun e => decide (75 ≤ e.similarity)) = true
        then (((sortBySimilarityDesc (collectSimilar total issueDate items
          (relevantInvoices userId clientId issueDate db))).head?).map
            SimilarEntry.similarity).getD 0
        else 95 - (((sortBySimilarityDesc (collectSimilar total issueDate items
          (relevantInvoices userId clientId issueDate db))).head?).map
            SimilarEntry.similarity).getD 0 * (1 / 2)) = _
      rw [hhigh, if_congr hbridge rfl rfl]

/-- Witness for C8: client `c9` has no invoices at all in the example
store, so the window is empty and detection reports not-duplicate at
confidence 95. -/
theorem C8_detect_duplicate_spec_witness :
    (detectDuplicateInvoice "u1" "c9" 50 0 [] exDB1).isDuplicate = false ∧
    (detectDuplicateInvoice "u1" "c9" 50 0 [] exDB1).confidence = 95 :=
  (C8_detect_duplicate_spec "u1" "c9" 50 0 [] exDB1).1
    (by simp [relevantInvoices, exDB1, exInv1])

/-- Helper: the description filter only removes suggestions. -/
theorem mem_of_mem_applyFilter (d : Option String) (l : List Suggestion) :
    ∀ s ∈ applyFilter d l, s ∈ l := by
  intro s hs
  cases d with
  | none => exact hs
  | some dd =>
    simp only [applyFilter] at hs
    by_cases h : trimStr dd = ""
    · rw [if_neg (by simp [h])] at hs
      exact hs
    · rw [if_pos h] at hs
      exact List.mem_of_mem_filter hs

/-- C9 (amended): `suggestLineItems` returns the top 10 client-derived
suggestions whenever any survive the optional filter, and falls back to
the user-wide aggregation exactly when the filtered client-derived list is
empty — which also happens for a client with history whose suggestions the
filter removes; every fallback suggestion carries the fixed quantity 1
(not the client path's average quantity) and confidence
`min(70, 30 + 5 × frequency)`. -/
theorem C9_suggest_fallback_spec (userId clientId : String)
    (description : Option String) (db : DB) :
    (suggestLineItems userId clientId description db =
      if clientSuggestions userId clientId description db = []
      then (fallbackSuggestions userId description db).take 10
      else (clientSuggestions userId clientId description db).take 10) ∧
    (∀ s ∈ fallbackSuggestions userId description db,
      s.quantity = 1 ∧ s.confidence = min 70 (30 + (s.frequency : ℚ) * 5)) := by
  refine ⟨rfl, ?_⟩
  intro s hs
  have hs1 := mem_of_mem_applyFilter _ _ s hs
  have hs2 : s ∈ ((((db.invoices.filter (fun i => decide (i.userId = userId))).take
      100).flatMap Invoice.items).foldl addGlobalItem []).map (fun e =>
        ({ description := e.description
           quantity := 1
           rate := e.rates.headD 0
           frequency := e.count
           confidence := min 70 (30 + (e.count : ℚ) * 5) } : Suggestion)) :=
    (List.perm_insertionSort freqRel _).mem_iff.mp hs1
  obtain ⟨e, _, rfl⟩ := List.mem_map.mp hs2
  exact ⟨rfl, rfl⟩

/-- Invoice of client `c1` with a quantity-5 "Design" item. -/
def sInv1 : Invoice :=
  ⟨"a", "INV-001", Status.sent, 0, 30, 250, 0, 0, 250, none, none, "USD",
   0, none, "c1", "u", [⟨"Design", 5, 50, 250⟩]⟩

/-- More recent invoice of client `c2` with a "zzz work" item. -/
def sInv2 : Invoice :=
  ⟨"b", "INV-002", Status.sent, 1, 31, 30, 0, 0, 30, none, none, "USD",
   0, none, "c2", "u", [⟨"zzz work", 3, 10, 30⟩]⟩

/-- Store for the C9 counterexample: one invoice per client. -/
def sDB : DB := ⟨[⟨"u", 0⟩], [], [sInv2, sInv1], []⟩

/-- Evaluation facts about the strings involved in the C9 example. -/
theorem sAux_trim : trimStr (toLowerStr "zzz") = "zzz" := by decide

/-- Evaluation fact: trimming "zzz" is the identity. -/
theorem sAux_trim2 : trimStr "zzz" = "zzz" := by decide

/-- Evaluation fact: the fallback suggestion "Design" does not match the
search "zzz". -/
theorem sAux_m3 : matchesSearch "zzz" ⟨"Design", 1, 50, 1, 35⟩ = false := by
  unfold matchesSearch
  decide

/-- Evaluation fact: lowercased trimmed key of "zzz work". -/
theorem sAux_key1 : lowerTrim "zzz work" = "zzz work" := by decide

/-- Evaluation fact: lowercased trimmed key of "Design". -/
theorem sAux_key2 : lowerTrim "Design" = "design" := by decide

/-- Evaluation fact: "zzz work" matches the search "zzz". -/
theorem sAux_m1 : matchesSearch "zzz" ⟨"zzz work", 1, 10, 1, 35⟩ = true := by
  unfold matchesSearch
  decide

/-- Evaluation fact: the client suggestion "Design" does not match the
search "zzz". -/
theorem sAux_m2 : matchesSearch "zzz" ⟨"Design", 5, 50, 1, 60⟩ = false := by
  unfold matchesSearch
  decide

/-- Counterexample to C9 as stated: client `c1` does have item history
(its client-derived aggregation suggests "Design" with the average
quantity 5), yet with the filter "zzz" the fallback fires and returns a
suggestion aggregated from another client's invoice; and for a
history-less client the fallback suggests quantity 1 for "Design", not
the average quantity 5 the claimed "same aggregation" would give. -/
theorem C9_suggest_counterexample :
    clientSuggestions "u" "c1" none sDB = [⟨"Design", 5, 50, 1, 60⟩] ∧
    suggestLineItems "u" "c1" (some "zzz") sDB = [⟨"zzz work", 1, 10, 1, 35⟩] ∧
    suggestLineItems "u" "c3" none sDB =
      [⟨"zzz work", 1, 10, 1, 35⟩, ⟨"Design", 1, 50, 1, 35⟩] ∧
    (5 : ℚ) ≠ 1 := by
  refine ⟨?_, ?_, ?_, by norm_num⟩
  · norm_num [clientSuggestions, applyFilter, sortByFrequencyDesc, freqRel,
      addClientItem, jsRound, sDB, sInv1, sInv2, sAux_key2,
      List.insertionSort, List.orderedInsert]
  · norm_num [suggestLineItems, clientSuggestions, fallbackSuggestions,
      applyFilter, sortByFrequencyDesc, freqRel, addClientItem, addGlobalItem,
      jsRound, sDB, sInv1, sInv2, List.insertionSort, List.orderedInsert,
      sAux_trim, sAux_trim2, sAux_key1, sAux_key2, sAux_m1, sAux_m2, sAux_m3,
      show (("zzz" : String) = "") = False from by decide]
  · norm_num [suggestLineItems, clientSuggestions, fallbackSuggestions,
      applyFilter, sortByFrequencyDesc, freqRel, addClientItem, addGlobalItem,
      jsRound, sDB, sInv1, sInv2, List.insertionSort, List.orderedInsert,
      sAux_key1, sAux_key2]

/-- Witness for C9 (amended): the fallback suggestion built from the
"zzz work" item carries quantity 1 and confidence
`min(70, 30 + 5 × 1) = 35`. -/
theorem C9_suggest_fallback_spec_witness :
    (⟨"zzz work", 1, 10, 1, 35⟩ : Suggestion).quantity = 1 ∧
    (⟨"zzz work", 1, 10, 1, 35⟩ : Suggestion).confidence =
      min 70 (30 + ((⟨"zzz work", 1, 10, 1, 35⟩ : Suggestion).frequency : ℚ) * 5) := by
  refine (C9_suggest_fallback_spec "u" "c3" none sDB).2 _ ?_
  have : fallbackSuggestions "u" none sDB =
      [⟨"zzz work", 1, 10, 1, 35⟩, ⟨"Design", 1, 50, 1, 35⟩] := by
    norm_num [fallbackSuggestions, applyFilter, sortByFrequencyDesc, freqRel,
      addGlobalItem, sDB, sInv1, sInv2, List.insertionSort, List.orderedInsert,
      sAux_key1, sAux_key2]
  rw [this]
  exact List.mem_cons_self _ _

end InvoFlow
